import Mathlib

/-!
Verification development for the kernel-sidecar core: a shallow embedding of
the message model (`models/messages.py`), the Action lifecycle engine
(`actions.py`), the client orchestrator (`client.py`), and the comm subsystem
(`comms.py`), together with theorems settling the specification claims.
-/

namespace KernelSidecar

/-! ## JSON-like payload values

Opaque payloads (`dict` / `Any` fields in the pydantic models) are embedded as
a small JSON-like value type; mappings become association lists. -/

inductive JVal where
  | null
  | str (s : String)
  | num (n : Int)
  | bool (b : Bool)
deriving DecidableEq, Repr

/-- An opaque mapping payload (a pydantic `dict` field). -/
abbrev JDict := List (String × JVal)

/-! ## Message model (src/kernel_sidecar/models/messages.py)

Each pydantic content model becomes a Lean structure with the same fields;
the discriminated `Message` union becomes an inductive over the variants. -/

/-- Header / parent_header structure; `date` is kept opaque. -/
structure Header where
  date : String
  msg_id : String
  msg_type : String
  session : String
  username : String
  version : String
deriving DecidableEq, Repr

inductive KernelStatus where
  | busy
  | idle
  | starting
deriving DecidableEq, Repr

inductive StreamChannel where
  | stdout
  | stderr
deriving DecidableEq, Repr

inductive CellStatus where
  | ok
  | error
  | aborted
deriving DecidableEq, Repr

structure StatusContent where
  execution_state : KernelStatus
deriving DecidableEq, Repr

structure ExecuteInputContent where
  code : String
  execution_count : Int
deriving DecidableEq, Repr

structure ErrorContent where
  ename : String
  evalue : String
  traceback : List String
deriving DecidableEq, Repr

/-- `Payload` union from execute replies (discriminated on `source`). -/
inductive Payload where
  | page (data : JDict) (start : Int)
  | setNextInput (text : String) (replace : Bool)
deriving DecidableEq, Repr

structure ExecuteReplyOkContent where
  execution_count : Int
  payload : List Payload
  user_expressions : JDict
deriving DecidableEq, Repr

structure ExecuteReplyErrorContent where
  execution_count : Int
  payload : List Payload
  user_expressions : JDict
  ename : String
  engine_info : JDict
  evalue : String
  traceback : List String
deriving DecidableEq, Repr

/-- `execute_reply` content: secondary discriminator on `content.status`. -/
inductive ExecuteReplyContent where
  | ok (c : ExecuteReplyOkContent)
  | error (c : ExecuteReplyErrorContent)
  | aborted
deriving DecidableEq, Repr

/-- The `status` value a given execute_reply content variant reports. -/
def ExecuteReplyContent.cellStatus : ExecuteReplyContent → CellStatus
  | .ok _ => .ok
  | .error _ => .error
  | .aborted => .aborted

structure ExecuteResultContent where
  execution_count : Int
  data : JDict
  metadata : JDict
deriving DecidableEq, Repr

structure StreamContent where
  name : StreamChannel
  text : String
deriving DecidableEq, Repr

structure DisplayDataContent where
  data : JDict
  metadata : JDict
  transient : JDict
deriving DecidableEq, Repr

structure CommOpenContent where
  comm_id : String
  target_name : String
  data : JVal
deriving DecidableEq, Repr

structure CommMsgContent where
  comm_id : String
  data : JVal
deriving DecidableEq, Repr

structure CommCloseContent where
  comm_id : String
  data : JVal
deriving DecidableEq, Repr

structure CommInfoReplyContent where
  comms : JDict
deriving DecidableEq, Repr

structure LanguageInfo where
  name : String
  version : String
  mimetype : String
  file_extension : String
  pygments_lexer : String
  codemirror_mode : String
  nbconvert_exporter : String
deriving DecidableEq, Repr

structure KernelInfoReplyContent where
  banner : String
  help_links : List JDict
  implementation : String
  implementation_version : String
  language_info : LanguageInfo
  protocol_version : String
  status : String
  debugger : Option Bool
deriving DecidableEq, Repr

structure InspectReplyContent where
  status : String
  found : Bool
  data : JDict
  metadata : JDict
deriving DecidableEq, Repr

structure CompleteReplyContent where
  status : String
  «matches» : List String
  cursor_start : Int
  cursor_end : Int
  metadata : JDict
deriving DecidableEq, Repr

structure HistoryReplyContent where
  status : String
  history : List JVal
deriving DecidableEq, Repr

structure ShutdownContent where
  status : String
  restart : Bool
deriving DecidableEq, Repr

structure DumpCellBody where
  sourcePath : String
deriving DecidableEq, Repr

structure DebugBreakpoints where
  source : String
  breakpoints : List String
deriving DecidableEq, Repr

structure DebugInfoBody where
  isStarted : Bool
  hashMethod : String
  hashSeed : String
  tmpFilePre : String
  tmpFileSuf : String
  breakpoints : List DebugBreakpoints
  stoppedThreads : List Int
  richRendering : Bool
  exceptionPaths : List String
deriving DecidableEq, Repr

/-- `debug_reply` content: secondary discriminator on `command`. -/
inductive DebugReplyContent where
  | dumpCell (success : Bool) (body : DumpCellBody)
  | debugInfo (success : Bool) (body : DebugInfoBody)
deriving DecidableEq, Repr

structure InputRequestContent where
  prompt : String
  password : Bool
deriving DecidableEq, Repr

/-- The shared `MessageBase` envelope fields (all but `content` / `msg_type`). -/
structure MsgBase where
  buffers : List JVal
  header : Header
  metadata : JDict
  msg_id : String
  parent_header : Header
deriving DecidableEq, Repr

/-- The discriminated `Message` union.  `historyReply` mirrors the source,
where `HistoryReply` subclasses plain `BaseModel` and so carries no envelope;
`interruptReply` keeps the inherited un-typed (`BaseModel`) content. -/
inductive Message where
  | status (base : MsgBase) (content : StatusContent)
  | executeInput (base : MsgBase) (content : ExecuteInputContent)
  | executeResult (base : MsgBase) (content : ExecuteResultContent)
  | stream (base : MsgBase) (content : StreamContent)
  | displayData (base : MsgBase) (content : DisplayDataContent)
  | updateDisplayData (base : MsgBase) (content : DisplayDataContent)
  | executeReply (base : MsgBase) (content : ExecuteReplyContent)
  | error (base : MsgBase) (content : ErrorContent)
  | commOpen (base : MsgBase) (content : CommOpenContent)
  | commMsg (base : MsgBase) (content : CommMsgContent)
  | commClose (base : MsgBase) (content : CommCloseContent)
  | commInfoReply (base : MsgBase) (content : CommInfoReplyContent)
  | kernelInfoReply (base : MsgBase) (content : KernelInfoReplyContent)
  | inspectReply (base : MsgBase) (content : InspectReplyContent)
  | completeReply (base : MsgBase) (content : CompleteReplyContent)
  | historyReply (content : HistoryReplyContent)
  | interruptReply (base : MsgBase)
  | shutdownReply (base : MsgBase) (content : ShutdownContent)
  | debugReply (base : MsgBase) (content : DebugReplyContent)
  | inputRequest (base : MsgBase) (content : InputRequestContent)
deriving DecidableEq, Repr

/-- The outer `msg_type` discriminator value of a parsed message. -/
def Message.msgType : Message → String
  | .status _ _ => "status"
  | .executeInput _ _ => "execute_input"
  | .executeResult _ _ => "execute_result"
  | .stream _ _ => "stream"
  | .displayData _ _ => "display_data"
  | .updateDisplayData _ _ => "update_display_data"
  | .executeReply _ _ => "execute_reply"
  | .error _ _ => "error"
  | .commOpen _ _ => "comm_open"
  | .commMsg _ _ => "comm_msg"
  | .commClose _ _ => "comm_close"
  | .commInfoReply _ _ => "comm_info_reply"
  | .kernelInfoReply _ _ => "kernel_info_reply"
  | .inspectReply _ _ => "inspect_reply"
  | .completeReply _ _ => "complete_reply"
  | .historyReply _ => "history_reply"
  | .interruptReply _ => "interrupt_reply"
  | .shutdownReply _ _ => "shutdown_reply"
  | .debugReply _ _ => "debug_reply"
  | .inputRequest _ _ => "input_request"

/-! ## Raw frames and parsing

A raw ZMQ frame as handed to `pydantic.parse_obj_as(messages.Message, raw)`.
The `content` of a raw frame either satisfies one of the typed content
schemas (one `RawContent` constructor per content model) or is some other
mapping (`RawContent.other`).  Envelope fields that may be absent from a raw
dict are `Option`s. -/

inductive RawContent where
  | status (c : StatusContent)
  | executeInput (c : ExecuteInputContent)
  | executeResult (c : ExecuteResultContent)
  | stream (c : StreamContent)
  | displayData (c : DisplayDataContent)
  | updateDisplayData (c : DisplayDataContent)
  | executeReply (c : ExecuteReplyContent)
  | error (c : ErrorContent)
  | commOpen (c : CommOpenContent)
  | commMsg (c : CommMsgContent)
  | commClose (c : CommCloseContent)
  | commInfoReply (c : CommInfoReplyContent)
  | kernelInfoReply (c : KernelInfoReplyContent)
  | inspectReply (c : InspectReplyContent)
  | completeReply (c : CompleteReplyContent)
  | historyReply (c : HistoryReplyContent)
  | shutdownReply (c : ShutdownContent)
  | debugReply (c : DebugReplyContent)
  | inputRequest (c : InputRequestContent)
  | other (v : JDict)
deriving DecidableEq, Repr

structure Frame where
  buffers : List JVal
  content : RawContent
  header : Option Header
  metadata : JDict
  msg_id : Option String
  msg_type : String
  parent_header : Option Header
deriving DecidableEq, Repr

/-- Validate the `MessageBase` envelope of a raw frame (pydantic requires
`header`, `msg_id` and `parent_header` for every `MessageBase` subclass). -/
def Frame.base? (f : Frame) : Except String MsgBase :=
  match f.header, f.parent_header, f.msg_id with
  | some h, some p, some mid => .ok ⟨f.buffers, h, f.metadata, mid, p⟩
  | _, _, _ => .error "ValidationError: missing envelope field"

/-- Parsing a raw frame into the discriminated `Message` union
(`pydantic.parse_obj_as(messages.Message, raw_msg)`).  The discriminator is
the outer `msg_type`; each variant then validates its typed content.
`history_reply` needs no envelope (its model subclasses `BaseModel`);
`interrupt_reply` accepts any content (inherited plain `BaseModel` content). -/
def parse (f : Frame) : Except String Message :=
  match f.msg_type with
  | "status" =>
    match f.content with
    | .status c => f.base?.map fun b => .status b c
    | _ => .error "ValidationError: content"
  | "execute_input" =>
    match f.content with
    | .executeInput c => f.base?.map fun b => .executeInput b c
    | _ => .error "ValidationError: content"
  | "execute_result" =>
    match f.content with
    | .executeResult c => f.base?.map fun b => .executeResult b c
    | _ => .error "ValidationError: content"
  | "stream" =>
    match f.content with
    | .stream c => f.base?.map fun b => .stream b c
    | _ => .error "ValidationError: content"
  | "display_data" =>
    match f.content with
    | .displayData c => f.base?.map fun b => .displayData b c
    | _ => .error "ValidationError: content"
  | "update_display_data" =>
    match f.content with
    | .updateDisplayData c => f.base?.map fun b => .updateDisplayData b c
    | _ => .error "ValidationError: content"
  | "execute_reply" =>
    match f.content with
    | .executeReply c => f.base?.map fun b => .executeReply b c
    | _ => .error "ValidationError: content"
  | "error" =>
    match f.content with
    | .error c => f.base?.map fun b => .error b c
    | _ => .error "ValidationError: content"
  | "comm_open" =>
    match f.content with
    | .commOpen c => f.base?.map fun b => .commOpen b c
    | _ => .error "ValidationError: content"
  | "comm_msg" =>
    match f.content with
    | .commMsg c => f.base?.map fun b => .commMsg b c
    | _ => .error "ValidationError: content"
  | "comm_close" =>
    match f.content with
    | .commClose c => f.base?.map fun b => .commClose b c
    | _ => .error "ValidationError: content"
  | "comm_info_reply" =>
    match f.content with
    | .commInfoReply c => f.base?.map fun b => .commInfoReply b c
    | _ => .error "ValidationError: content"
  | "kernel_info_reply" =>
    match f.content with
    | .kernelInfoReply c => f.base?.map fun b => .kernelInfoReply b c
    | _ => .error "ValidationError: content"
  | "inspect_reply" =>
    match f.content with
    | .inspectReply c => f.base?.map fun b => .inspectReply b c
    | _ => .error "ValidationError: content"
  | "complete_reply" =>
    match f.content with
    | .completeReply c => f.base?.map fun b => .completeReply b c
    | _ => .error "ValidationError: content"
  | "history_reply" =>
    match f.content with
    | .historyReply c => .ok (.historyReply c)
    | _ => .error "ValidationError: content"
  | "interrupt_reply" => f.base?.map fun b => .interruptReply b
  | "shutdown_reply" =>
    match f.content with
    | .shutdownReply c => f.base?.map fun b => .shutdownReply b c
    | _ => .error "ValidationError: content"
  | "debug_reply" =>
    match f.content with
    | .debugReply c => f.base?.map fun b => .debugReply b c
    | _ => .error "ValidationError: content"
  | "input_request" =>
    match f.content with
    | .inputRequest c => f.base?.map fun b => .inputRequest b c
    | _ => .error "ValidationError: content"
  | _ => .error "ValidationError: no discriminator match for msg_type"

/-- Serialize a parsed message back to a raw frame (`msg.dict()`).  For
`historyReply` only `msg_type` and `content` exist on the model; for
`interruptReply` the content is the empty `BaseModel` mapping. -/
def serialize : Message → Frame
  | .status b c =>
    ⟨b.buffers, .status c, some b.header, b.metadata, some b.msg_id, "status", some b.parent_header⟩
  | .executeInput b c =>
    ⟨b.buffers, .executeInput c, some b.header, b.metadata, some b.msg_id, "execute_input",
      some b.parent_header⟩
  | .executeResult b c =>
    ⟨b.buffers, .executeResult c, some b.header, b.metadata, some b.msg_id, "execute_result",
      some b.parent_header⟩
  | .stream b c =>
    ⟨b.buffers, .stream c, some b.header, b.metadata, some b.msg_id, "stream", some b.parent_header⟩
  | .displayData b c =>
    ⟨b.buffers, .displayData c, some b.header, b.metadata, some b.msg_id, "display_data",
      some b.parent_header⟩
  | .updateDisplayData b c =>
    ⟨b.buffers, .updateDisplayData c, some b.header, b.metadata, some b.msg_id,
      "update_display_data", some b.parent_header⟩
  | .executeReply b c =>
    ⟨b.buffers, .executeReply c, some b.header, b.metadata, some b.msg_id, "execute_reply",
      some b.parent_header⟩
  | .error b c =>
    ⟨b.buffers, .error c, some b.header, b.metadata, some b.msg_id, "error", some b.parent_header⟩
  | .commOpen b c =>
    ⟨b.buffers, .commOpen c, some b.header, b.metadata, some b.msg_id, "comm_open",
      some b.parent_header⟩
  | .commMsg b c =>
    ⟨b.buffers, .commMsg c, some b.header, b.metadata, some b.msg_id, "comm_msg",
      some b.parent_header⟩
  | .commClose b c =>
    ⟨b.buffers, .commClose c, some b.header, b.metadata, some b.msg_id, "comm_close",
      some b.parent_header⟩
  | .commInfoReply b c =>
    ⟨b.buffers, .commInfoReply c, some b.header, b.metadata, some b.msg_id, "comm_info_reply",
      some b.parent_header⟩
  | .kernelInfoReply b c =>
    ⟨b.buffers, .kernelInfoReply c, some b.header, b.metadata, some b.msg_id, "kernel_info_reply",
      some b.parent_header⟩
  | .inspectReply b c =>
    ⟨b.buffers, .inspectReply c, some b.header, b.metadata, some b.msg_id, "inspect_reply",
      some b.parent_header⟩
  | .completeReply b c =>
    ⟨b.buffers, .completeReply c, some b.header, b.metadata, some b.msg_id, "complete_reply",
      some b.parent_header⟩
  | .historyReply c => ⟨[], .historyReply c, none, [], none, "history_reply", none⟩
  | .interruptReply b =>
    ⟨b.buffers, .other [], some b.header, b.metadata, some b.msg_id, "interrupt_reply",
      some b.parent_header⟩
  | .shutdownReply b c =>
    ⟨b.buffers, .shutdownReply c, some b.header, b.metadata, some b.msg_id, "shutdown_reply",
      some b.parent_header⟩
  | .debugReply b c =>
    ⟨b.buffers, .debugReply c, some b.header, b.metadata, some b.msg_id, "debug_reply",
      some b.parent_header⟩
  | .inputRequest b c =>
    ⟨b.buffers, .inputRequest c, some b.header, b.metadata, some b.msg_id, "input_request",
      some b.parent_header⟩

/-- The `msg_type` values the `Message` union actually discriminates over. -/
def supportedMsgTypes : List String :=
  ["status", "execute_input", "execute_result", "stream", "display_data", "update_display_data",
   "execute_reply", "error", "comm_open", "comm_msg", "comm_close", "comm_info_reply",
   "kernel_info_reply", "inspect_reply", "complete_reply", "history_reply", "interrupt_reply",
   "shutdown_reply", "debug_reply", "input_request"]

/-- The envelope fields every `MessageBase` variant requires of a raw frame. -/
def envOk (f : Frame) : Bool :=
  f.header.isSome && f.parent_header.isSome && f.msg_id.isSome

/-- A raw frame is well-formed when its content satisfies the schema of its
variant of its `msg_type` and the required envelope fields are present. -/
def wellFormed (f : Frame) : Bool :=
  match f.msg_type with
  | "status" => (match f.content with | .status _ => envOk f | _ => false)
  | "execute_input" => (match f.content with | .executeInput _ => envOk f | _ => false)
  | "execute_result" => (match f.content with | .executeResult _ => envOk f | _ => false)
  | "stream" => (match f.content with | .stream _ => envOk f | _ => false)
  | "display_data" => (match f.content with | .displayData _ => envOk f | _ => false)
  | "update_display_data" =>
    (match f.content with | .updateDisplayData _ => envOk f | _ => false)
  | "execute_reply" => (match f.content with | .executeReply _ => envOk f | _ => false)
  | "error" => (match f.content with | .error _ => envOk f | _ => false)
  | "comm_open" => (match f.content with | .commOpen _ => envOk f | _ => false)
  | "comm_msg" => (match f.content with | .commMsg _ => envOk f | _ => false)
  | "comm_close" => (match f.content with | .commClose _ => envOk f | _ => false)
  | "comm_info_reply" => (match f.content with | .commInfoReply _ => envOk f | _ => false)
  | "kernel_info_reply" => (match f.content with | .kernelInfoReply _ => envOk f | _ => false)
  | "inspect_reply" => (match f.content with | .inspectReply _ => envOk f | _ => false)
  | "complete_reply" => (match f.content with | .completeReply _ => envOk f | _ => false)
  | "history_reply" => (match f.content with | .historyReply _ => true | _ => false)
  | "interrupt_reply" => envOk f
  | "shutdown_reply" => (match f.content with | .shutdownReply _ => envOk f | _ => false)
  | "debug_reply" => (match f.content with | .debugReply _ => envOk f | _ => false)
  | "input_request" => (match f.content with | .inputRequest _ => envOk f | _ => false)
  | _ => false

/-! ## Action lifecycle engine (src/kernel_sidecar/actions.py)

`KernelActionBase` keeps two events (`_kernel_idle`, `_reply_seen`) and a
future; subclasses add the reply handler that sets `_reply_seen`.
`CommActionBase` overrides `handle_status` to resolve the future directly on
idle.  Handlers dispatch by `handle_<msg_type>` attribute lookup; a missing
handler falls through to `unhandled_message`. -/

/-- The concrete Action subclasses in the source. -/
inductive ActionKind where
  | kernelInfo
  | execute
  | complete
  | interrupt
  | commOpen
  | commMsg
deriving DecidableEq, Repr

/-- The `msg_type` of the expected reply whose handler sets `_reply_seen`:
`none` for comm actions, which define no such handler. -/
def replyMsgType : ActionKind → Option String
  | .kernelInfo => some "kernel_info_reply"
  | .execute => some "execute_reply"
  | .complete => some "complete_reply"
  | .interrupt => some "interrupt_reply"
  | .commOpen => none
  | .commMsg => none

/-- The mutable state of one Action: the two completion events, whether the
future has a result, and the per-subclass bookkeeping attributes. -/
structure ActionState where
  kernelIdle : Bool := false
  replySeen : Bool := false
  futureResolved : Bool := false
  comms : List RawContent := []
  commError : Option String := none
  outputs : List RawContent := []
  executionCount : Option Int := none
  cellStatus : Option CellStatus := none
  errorContent : Option ErrorContent := none
  replyContent : Option RawContent := none
deriving DecidableEq, Repr

/-- `KernelActionBase.maybe_set_future`: resolve the future when both events
are set.  `asyncio.Future.set_result` raises `InvalidStateError` when the
future is already resolved; the `Bool` reports whether the call raised. -/
def maybeSetFuture (s : ActionState) : ActionState × Bool :=
  if s.kernelIdle && s.replySeen then
    if s.futureResolved then (s, true) else ({ s with futureResolved := true }, false)
  else (s, false)

/-- `CommActionBase.handle_status` on idle: `self._future.set_result(self)`
directly; raises when the future is already resolved. -/
def setFutureResult (s : ActionState) : ActionState × Bool :=
  if s.futureResolved then (s, true) else ({ s with futureResolved := true }, false)

/-- The `getattr(self, f"handle_{msg.msg_type}", None)` dispatch: `none` when
the Action defines no handler for the message type, otherwise the state change of the handler plus whether the handler raised. -/
def actionHandler (k : ActionKind) (s : ActionState) (m : Message) :
    Option (ActionState × Bool) :=
  match m with
  | .status _ c =>
    match k with
    | .commOpen | .commMsg =>
      some (if c.execution_state = .idle then setFutureResult s else (s, false))
    | _ =>
      some (if c.execution_state = .idle then maybeSetFuture { s with kernelIdle := true }
            else (s, false))
  | .shutdownReply _ _ => some (s, false)
  | .commOpen _ c => some ({ s with comms := s.comms ++ [RawContent.commOpen c] }, false)
  | .commClose _ c => some ({ s with comms := s.comms ++ [RawContent.commClose c] }, false)
  | .commMsg _ c => some ({ s with comms := s.comms ++ [RawContent.commMsg c] }, false)
  | .kernelInfoReply _ c =>
    match k with
    | .kernelInfo =>
      some (maybeSetFuture
        { s with replyContent := some (RawContent.kernelInfoReply c), replySeen := true })
    | _ => none
  | .executeInput _ c =>
    match k with
    | .execute => some ({ s with executionCount := some c.execution_count }, false)
    | _ => none
  | .error _ c =>
    match k with
    | .execute =>
      some ({ s with outputs := s.outputs ++ [RawContent.error c], errorContent := some c }, false)
    | _ => none
  | .executeResult _ c =>
    match k with
    | .execute => some ({ s with outputs := s.outputs ++ [RawContent.executeResult c] }, false)
    | _ => none
  | .stream _ c =>
    match k with
    | .execute => some ({ s with outputs := s.outputs ++ [RawContent.stream c] }, false)
    | .commOpen | .commMsg =>
      some (if c.name = .stderr then ({ s with commError := some c.text }, false) else (s, false))
    | _ => none
  | .displayData _ c =>
    match k with
    | .execute => some ({ s with outputs := s.outputs ++ [RawContent.displayData c] }, false)
    | _ => none
  | .updateDisplayData _ c =>
    match k with
    | .execute => some ({ s with outputs := s.outputs ++ [RawContent.updateDisplayData c] }, false)
    | _ => none
  | .executeReply _ c =>
    match k with
    | .execute =>
      some (maybeSetFuture { s with cellStatus := some c.cellStatus, replySeen := true })
    | _ => none
  | .completeReply _ c =>
    match k with
    | .complete =>
      some (maybeSetFuture
        { s with replyContent := some (RawContent.completeReply c), replySeen := true })
    | _ => none
  | .interruptReply _ =>
    match k with
    | .interrupt => some (maybeSetFuture { s with replySeen := true })
    | _ => none
  | _ => none

/-- An observer attached via `Action.observe`; `raises` models a callback
that throws when invoked. -/
structure Observer where
  message_type : Option String := none
  id : Nat := 0
  raises : Bool := false
deriving DecidableEq, Repr

/-- `if not obs.message_type or msg.msg_type == obs.message_type` — a `None`
or empty-string `message_type` matches every message. -/
def observerMatches (o : Observer) (mt : String) : Bool :=
  match o.message_type with
  | none => true
  | some t => t = "" || t = mt

/-- Run the observer callbacks in registration order; returns the ids of the
callbacks that ran and whether one raised (aborting the remainder). -/
def runObservers (mt : String) : List Observer → List Nat × Bool
  | [] => ([], false)
  | o :: rest =>
    if observerMatches o mt then
      if o.raises then ([], true)
      else
        let r := runObservers mt rest
        (o.id :: r.1, r.2)
    else runObservers mt rest

/-- Outcome of `KernelActionBase.handle_message` on one message. -/
structure HandleResult where
  state : ActionState
  observersRun : List Nat
  handlerErrorLogged : Bool
  raised : Bool
deriving DecidableEq, Repr

/-- `KernelActionBase.handle_message`: run the `handle_<msg_type>` handler if
defined (an exception there is caught, logged, and the method returns before
the observer loop); otherwise `unhandled_message`; then await the matching
observers in order (an observer exception propagates out uncaught). -/
def handleMessage (k : ActionKind) (obs : List Observer) (s : ActionState) (m : Message) :
    HandleResult :=
  match actionHandler k s m with
  | some (s1, true) => ⟨s1, [], true, false⟩
  | some (s1, false) =>
    let r := runObservers m.msgType obs
    ⟨s1, r.1, false, r.2⟩
  | none =>
    let r := runObservers m.msgType obs
    ⟨s, r.1, false, r.2⟩

/-- Deliver a sequence of inbound messages to a fresh Action of kind `k`
(no observers), keeping the resulting state. -/
def runAction (k : ActionKind) (ms : List Message) : ActionState :=
  ms.foldl (fun s m => (handleMessage k [] s m).state) {}

/-- Does this message report `execution_state == "idle"`? -/
def isIdleStatus : Message → Bool
  | .status _ c => c.execution_state = .idle
  | _ => false

/-- Is this message the expected reply for an Action of kind `k`? -/
def isExpectedReply (k : ActionKind) (m : Message) : Bool :=
  match replyMsgType k with
  | some t => m.msgType = t
  | none => false

/-! ## Safety-net timer (§4.3 of the spec)

The revision of the Action class that carries the safety-net timer
(`KernelAction`) is referenced by `client.py` / `kernel.py` and the tests but
its module is not part of the sources here, so the timer is modelled from the
specification text. -/

/-- Modelled from the spec: the events driving the safety net of one Action —
the missing `KernelAction` starts a timer task when `status=idle` is seen
before the reply.  `tick` is one second of elapsed time. -/
inductive SafetyEvent where
  | msgIdle
  | msgReply
  | tick
deriving DecidableEq, Repr

/-- Modelled from the spec: per-Action completion state with the lazily
started safety-net countdown (`timer = some n` means the pending timer fires
after `n` more seconds). -/
structure SafetyState where
  idleSeen : Bool := false
  replySeen : Bool := false
  done : Bool := false
  timer : Option Nat := none
  safetyFired : Bool := false
deriving DecidableEq, Repr

/-- Modelled from the spec: the default safety-net window T = 3 seconds. -/
def safetyWindow : Nat := 3

/-- Modelled from the spec: one step of the missing `KernelAction` state
machine.  Idle starts the safety net when the Action is not yet done; the
reply (with idle already seen) completes the Action and cancels the timer; a
tick counts the window down, and on expiry the safety net sets `reply_seen`,
finalizes the Action and logs a warning. -/
def safetyStep (s : SafetyState) : SafetyEvent → SafetyState
  | .msgIdle =>
    let s1 := { s with idleSeen := true }
    if s1.replySeen then { s1 with done := true, timer := none }
    else if s1.done then s1
    else
      match s1.timer with
      | some _ => s1
      | none => { s1 with timer := some safetyWindow }
  | .msgReply =>
    let s1 := { s with replySeen := true }
    if s1.idleSeen then { s1 with done := true, timer := none } else s1
  | .tick =>
    match s.timer with
    | none => s
    | some (n + 1) =>
      if n = 0 then
        { s with replySeen := true, done := true, safetyFired := true, timer := none }
      else { s with timer := some n }
    | some 0 => { s with timer := none }

/-- Modelled from the spec: run the safety-net state machine of one Action over a
sequence of events from the initial state. -/
def safetyRun (evs : List SafetyEvent) : SafetyState :=
  evs.foldl safetyStep {}

/-! ## Client submit path (src/kernel_sidecar/client.py, `send`)

`KernelSidecarClient.send` guards against resubmission, appends the default
handlers and the Comm Manager to the handler list of the Action, and only marks
the Action sent and registers it after the channel send succeeds. -/

/-- A handler entry on the handler list of an Action. -/
inductive HandlerRef where
  | user (i : Nat)
  | defaultHandler (i : Nat)
  | commManager
deriving DecidableEq, Repr

/-- The slice of a `KernelAction` that `send` reads and writes:
the request `msg_id`, the `sent` flag and the handler list. -/
structure SendableAction where
  msg_id : String
  sent : Bool := false
  handlers : List HandlerRef := []
deriving DecidableEq, Repr

/-- How a call to `send` can fail: the two `RuntimeError` guards, or the
re-raised exception from `channel.send`. -/
inductive SendError where
  | alreadySent
  | alreadyTracking
  | transport
deriving DecidableEq, Repr

/-- The client state `send` touches: the insertion-ordered action registry
and the configured default handlers. -/
structure SendClient where
  actions : List (String × SendableAction) := []
  default_handlers : List HandlerRef := []
deriving DecidableEq, Repr

/-- Result of one `send` call: the client and action afterwards, plus the
error raised, if any. -/
structure SendOutcome where
  client : SendClient
  action : SendableAction
  error : Option SendError
deriving DecidableEq, Repr

/-- `KernelSidecarClient.send`: raise if already sent or if the `msg_id` is
already tracked; extend the handler list with the default handlers and then
the Comm Manager; try the channel send (`transportOk`), and only on success
set `sent` and publish the Action into the registry — a transport failure is
logged and re-raised with the registry untouched. -/
def send (c : SendClient) (transportOk : Bool) (a : SendableAction) : SendOutcome :=
  if a.sent then ⟨c, a, some .alreadySent⟩
  else if (c.actions.lookup a.msg_id).isSome then ⟨c, a, some .alreadyTracking⟩
  else
    let a1 := { a with handlers := a.handlers ++ c.default_handlers ++ [HandlerRef.commManager] }
    if transportOk then
      let a2 := { a1 with sent := true }
      ⟨{ c with actions := c.actions ++ [(a2.msg_id, a2)] }, a2, none⟩
    else ⟨c, a1, some .transport⟩

/-- Modelled from the spec: the missing `KernelAction.handle_message` awaits
the handlers of the Action sequentially in list order for each delivered message,
so the invocation order is the handler list itself. -/
def invocationOrder (a : SendableAction) : List HandlerRef := a.handlers

/-! ## Dispatcher loop (src/kernel_sidecar/client.py, `process_message`)

The loop pulls raw frames off the queue.  A frame without a parent header
goes to the missing-parent hook.  Parsing is guarded by
`except pydantic.ValidationError` which awaits the unparseable hook — and
then falls through: the Python local `msg` keeps whatever the previous
iteration bound (or is unbound on the first), and the loop body continues
with it.  Handler failures are caught by the trailing bare `except`. -/

/-- One registered Action as the dispatcher sees it. -/
structure ActionRec where
  kind : ActionKind
  observers : List Observer := []
  state : ActionState := {}
deriving DecidableEq, Repr

/-- The dispatcher state: the Python local `msg` surviving across loop
iterations, the action registry, and counters for each hook / log branch. -/
structure ClientLoopState where
  msgVar : Option Message := none
  actions : List (String × ActionRec) := []
  missingParentCount : Nat := 0
  unparseableCount : Nat := 0
  untrackedCount : Nat := 0
  handlerErrorCount : Nat := 0
deriving DecidableEq, Repr

/-- `msg.parent_header.msg_id`; `none` when the parsed model has no
`parent_header` attribute (`HistoryReply` subclasses plain `BaseModel`). -/
def parentMsgId : Message → Option String
  | .status b _ => some b.parent_header.msg_id
  | .executeInput b _ => some b.parent_header.msg_id
  | .executeResult b _ => some b.parent_header.msg_id
  | .stream b _ => some b.parent_header.msg_id
  | .displayData b _ => some b.parent_header.msg_id
  | .updateDisplayData b _ => some b.parent_header.msg_id
  | .executeReply b _ => some b.parent_header.msg_id
  | .error b _ => some b.parent_header.msg_id
  | .commOpen b _ => some b.parent_header.msg_id
  | .commMsg b _ => some b.parent_header.msg_id
  | .commClose b _ => some b.parent_header.msg_id
  | .commInfoReply b _ => some b.parent_header.msg_id
  | .kernelInfoReply b _ => some b.parent_header.msg_id
  | .inspectReply b _ => some b.parent_header.msg_id
  | .completeReply b _ => some b.parent_header.msg_id
  | .historyReply _ => none
  | .interruptReply b => some b.parent_header.msg_id
  | .shutdownReply b _ => some b.parent_header.msg_id
  | .debugReply b _ => some b.parent_header.msg_id
  | .inputRequest b _ => some b.parent_header.msg_id

/-- Replace the stored state of the action registered under `pid`. -/
def updateActionRec (xs : List (String × ActionRec)) (pid : String) (ar : ActionRec) :
    List (String × ActionRec) :=
  xs.map fun p => if p.1 = pid then (pid, ar) else p

/-- The tail of the loop body once a parsed message `m` is in hand: look the
owning Action up by `parent_header.msg_id` (an attribute error there is
uncaught and kills the loop), route unknown parents to the untracked hook,
and deliver to the Action under the bare `except` that logs handler errors
and keeps the loop alive. -/
def dispatchParsed (c : ClientLoopState) (m : Message) : Except String ClientLoopState :=
  match parentMsgId m with
  | none => .error "AttributeError: object has no attribute parent_header"
  | some pid =>
    match c.actions.lookup pid with
    | none => .ok { c with untrackedCount := c.untrackedCount + 1 }
    | some ar =>
      let hr := handleMessage ar.kind ar.observers ar.state m
      let acts := updateActionRec c.actions pid { ar with state := hr.state }
      if hr.raised then
        .ok { c with actions := acts, handlerErrorCount := c.handlerErrorCount + 1 }
      else .ok { c with actions := acts }

/-- One iteration of `KernelSidecarClient.process_message` on the next queued
frame.  On a parse failure the unparseable hook runs and — with no `continue`
in the source — the body falls through and evaluates `msg`, which is the
binding left by the previous iteration, or unbound (a fatal `NameError`) when no frame
has parsed yet. -/
def processFrame (c : ClientLoopState) (f : Frame) : Except String ClientLoopState :=
  if f.parent_header = none then .ok { c with missingParentCount := c.missingParentCount + 1 }
  else
    match parse f with
    | .ok m => dispatchParsed { c with msgVar := some m } m
    | .error _ =>
      let c1 := { c with unparseableCount := c.unparseableCount + 1 }
      match c1.msgVar with
      | none => .error "NameError: name msg is not defined"
      | some m => dispatchParsed c1 m

/-- Run the dispatcher over a queue of raw frames; `.error` means the
dispatcher coroutine died with an uncaught exception. -/
def processQueue (c : ClientLoopState) (fs : List Frame) : Except String ClientLoopState :=
  fs.foldlM processFrame c

/-! ## Comm Manager (src/kernel_sidecar/comms.py)

`CommManager` maps `target_name → handler class` (`handlers`) and
`comm_id → handler instance` (`comms`); it is attached to every Action and
dispatches `comm_open` / `comm_msg` / `comm_close`. -/

/-- One instantiated `CommHandler`: which class produced it and the messages
delivered to it, in order. -/
structure CommHandlerInst where
  comm_id : String
  classId : Nat
  delivered : List Message := []
deriving DecidableEq, Repr

/-- The Comm Manager state, plus counters for the two fall-through hooks
and a log of every `await handler(msg)` delivery `(comm_id, message)`. -/
structure CommManagerState where
  comms : List (String × CommHandlerInst) := []
  handlers : List (String × Nat) := []
  unrecognizedTargetCount : Nat := 0
  unrecognizedCommCount : Nat := 0
  deliveryLog : List (String × Message) := []
deriving DecidableEq, Repr

/-- `self.comms[comm_id] = handler` on a Python dict: replace in place when
the key exists, else append. -/
def updateAssoc {β : Type} (xs : List (String × β)) (k : String) (v : β) : List (String × β) :=
  if (xs.lookup k).isSome then xs.map (fun p => if p.1 = k then (k, v) else p)
  else xs ++ [(k, v)]

/-- `del self.comms[comm_id]`. -/
def eraseAssoc {β : Type} (xs : List (String × β)) (k : String) : List (String × β) :=
  xs.filter fun p => p.1 ≠ k

/-- `await handler(msg)`: the handler instance records the message. -/
def deliverTo (h : CommHandlerInst) (m : Message) : CommHandlerInst :=
  { h with delivered := h.delivered ++ [m] }

/-- `CommManager.handle_comm_open`: deliver to the existing handler when the
`comm_id` is already known; otherwise consult `handlers` by `target_name` —
unknown targets go to `handle_unrecognized_comm_target` and stop, known ones
instantiate the class, store it under `comm_id` and deliver the message. -/
def handleCommOpenMgr (st : CommManagerState) (m : Message) (c : CommOpenContent) :
    CommManagerState :=
  match st.comms.lookup c.comm_id with
  | some h =>
    { st with comms := updateAssoc st.comms c.comm_id (deliverTo h m),
              deliveryLog := st.deliveryLog ++ [(c.comm_id, m)] }
  | none =>
    match st.handlers.lookup c.target_name with
    | none => { st with unrecognizedTargetCount := st.unrecognizedTargetCount + 1 }
    | some cls =>
      let h := deliverTo { comm_id := c.comm_id, classId := cls, delivered := [] } m
      { st with comms := updateAssoc st.comms c.comm_id h,
                deliveryLog := st.deliveryLog ++ [(c.comm_id, m)] }

/-- `CommManager.handle_comm_msg`: unknown `comm_id` goes to
`handle_unrecognized_comm_id` and stops; otherwise deliver. -/
def handleCommMsgMgr (st : CommManagerState) (m : Message) (c : CommMsgContent) :
    CommManagerState :=
  match st.comms.lookup c.comm_id with
  | none => { st with unrecognizedCommCount := st.unrecognizedCommCount + 1 }
  | some h =>
    { st with comms := updateAssoc st.comms c.comm_id (deliverTo h m),
              deliveryLog := st.deliveryLog ++ [(c.comm_id, m)] }

/-- `CommManager.handle_comm_close`: unknown `comm_id` goes to
`handle_unrecognized_comm_id`; otherwise deliver the message to the handler
and then delete the `comm_id` from `comms`. -/
def handleCommCloseMgr (st : CommManagerState) (m : Message) (c : CommCloseContent) :
    CommManagerState :=
  match st.comms.lookup c.comm_id with
  | none => { st with unrecognizedCommCount := st.unrecognizedCommCount + 1 }
  | some h =>
    let st1 := { st with comms := updateAssoc st.comms c.comm_id (deliverTo h m),
                         deliveryLog := st.deliveryLog ++ [(c.comm_id, m)] }
    { st1 with comms := eraseAssoc st1.comms c.comm_id }

/-- The Comm Manager as a `Handler`: `__call__` dispatches by
`handle_<msg_type>`; everything that is not a comm message falls through to
the no-op `unhandled_message`. -/
def commManagerHandle (st : CommManagerState) (m : Message) : CommManagerState :=
  match m with
  | .commOpen _ c => handleCommOpenMgr st m c
  | .commMsg _ c => handleCommMsgMgr st m c
  | .commClose _ c => handleCommCloseMgr st m c
  | _ => st

/-! ## Concrete sample data for witnesses and counterexamples -/

/-- A sample inbound-message header. -/
def sampleHeader : Header := ⟨"d", "h1", "status", "s", "u", "5.3"⟩

/-- A sample parent (request) header with `msg_id` "p1". -/
def sampleParent : Header := ⟨"d", "p1", "execute_request", "s", "u", "5.3"⟩

/-- A sample message envelope whose parent request is "p1". -/
def sampleBase : MsgBase := ⟨[], sampleHeader, [], "h1", sampleParent⟩

/-- A `status` message reporting `execution_state: idle` under parent "p1". -/
def sampleIdleMsg : Message := .status sampleBase ⟨KernelStatus.idle⟩

/-- A raw frame for `sampleIdleMsg`. -/
def sampleStatusFrame : Frame :=
  ⟨[], .status ⟨KernelStatus.idle⟩, some sampleHeader, [], some "h1", "status", some sampleParent⟩

/-- A raw frame with a `msg_type` outside the `Message` union. -/
def sampleBogusFrame : Frame :=
  ⟨[], .other [], some sampleHeader, [], some "b1", "bogus_type", some sampleParent⟩

/-- A raw frame for a well-formed `is_complete_reply`
(per the messaging protocol its content is `{status, indent}`). -/
def sampleIsCompleteReplyFrame : Frame :=
  ⟨[], .other [("status", JVal.str "complete"), ("indent", JVal.str "")],
    some ⟨"d", "h2", "is_complete_reply", "s", "u", "5.3"⟩, [], some "h2", "is_complete_reply",
    some sampleParent⟩

/-! # Theorems -/

/-! ## Parsing and serialization (claims C8, C9) -/

theorem except_isOk_map {α β γ : Type} (g : β → γ) (e : Except α β) :
    (e.map g).isOk = e.isOk := by
  cases e <;> rfl

theorem base?_isOk (f : Frame) :
    f.base?.isOk = (f.header.isSome && f.parent_header.isSome && f.msg_id.isSome) := by
  unfold Frame.base?
  cases f.header <;> cases f.parent_header <;> cases f.msg_id <;> rfl

set_option maxHeartbeats 2000000 in
theorem parse_isOk_eq_wellFormed (f : Frame) : (parse f).isOk = wellFormed f := by
  obtain ⟨bf, cf, hf, mf, idf, tf, pf⟩ := f
  cases cf <;> (unfold parse wellFormed; split) <;>
    first
    | rfl
    | simp_all [except_isOk_map, base?_isOk, envOk]

/-- Claim C9: round-trip law — serializing a parsed inbound message and
parsing the result yields the same model: `parse (serialize m) = ok m` for
every variant of the `Message` union. -/
theorem parse_serialize_roundtrip (m : Message) : parse (serialize m) = .ok m := by
  cases m <;> rfl

/-- Claim C8 (amended): parsing succeeds exactly on well-formed frames of the
20 msg_types the union discriminates over — `is_complete_reply`, though
enumerated in §6, has no variant — and fails for any frame whose `msg_type`
is outside the union. -/
theorem parse_supported_types (f : Frame) :
    (wellFormed f = true → (parse f).isOk = true) ∧
    (f.msg_type ∉ supportedMsgTypes → (parse f).isOk = false) := by
  constructor
  · intro h
    rw [parse_isOk_eq_wellFormed]
    exact h
  · intro h
    rw [parse_isOk_eq_wellFormed]
    unfold wellFormed
    split <;> simp_all [supportedMsgTypes]


/-- Witness for the amended C8 theorem: `sampleStatusFrame` is well-formed and
parses, while `sampleBogusFrame` has an unknown `msg_type` and fails. -/
theorem parse_supported_types_witness :
    (parse sampleStatusFrame).isOk = true ∧ (parse sampleBogusFrame).isOk = false :=
  ⟨(parse_supported_types sampleStatusFrame).1 (by decide),
   (parse_supported_types sampleBogusFrame).2 (by decide)⟩

/-- Counterexample for claim C8 as stated: a well-formed `is_complete_reply`
frame — `msg_type` in the §6 enumeration, protocol content `{status, indent}`,
full envelope — fails to parse, because the union has no variant for it. -/
theorem parse_is_complete_reply_fails :
    parse sampleIsCompleteReplyFrame
      = .error "ValidationError: no discriminator match for msg_type" := by
  rfl

/-! ## Action completion state machine (claims C1, C7) -/

theorem actionStep_base (k : ActionKind) (hk : (replyMsgType k).isSome = true)
    (s : ActionState) (m : Message) :
    ((handleMessage k [] s m).state.kernelIdle = (s.kernelIdle || isIdleStatus m)) ∧
    ((handleMessage k [] s m).state.replySeen = (s.replySeen || isExpectedReply k m)) ∧
    (s.futureResolved = (s.kernelIdle && s.replySeen) →
      (handleMessage k [] s m).state.futureResolved
        = ((handleMessage k [] s m).state.kernelIdle
            && (handleMessage k [] s m).state.replySeen)) := by
  cases k <;> simp_all [replyMsgType] <;> cases m <;>
    simp [handleMessage, actionHandler, maybeSetFuture, isIdleStatus, isExpectedReply,
      replyMsgType, Message.msgType, runObservers] <;>
    split_ifs <;> simp_all

theorem actionStep_comm (k : ActionKind) (hk : replyMsgType k = none)
    (s : ActionState) (m : Message) :
    ((handleMessage k [] s m).state.kernelIdle = s.kernelIdle) ∧
    ((handleMessage k [] s m).state.replySeen = s.replySeen) ∧
    ((handleMessage k [] s m).state.futureResolved = (s.futureResolved || isIdleStatus m)) := by
  cases k <;> simp_all [replyMsgType] <;> cases m <;>
    simp [handleMessage, actionHandler, setFutureResult, isIdleStatus, Message.msgType,
      runObservers] <;>
    split_ifs <;> simp_all

theorem runFrom_base (k : ActionKind) (hk : (replyMsgType k).isSome = true) (ms : List Message) :
    ∀ s : ActionState, s.futureResolved = (s.kernelIdle && s.replySeen) →
      ((ms.foldl (fun s m => (handleMessage k [] s m).state) s).kernelIdle
          = (s.kernelIdle || ms.any isIdleStatus)) ∧
      ((ms.foldl (fun s m => (handleMessage k [] s m).state) s).replySeen
          = (s.replySeen || ms.any (isExpectedReply k))) ∧
      ((ms.foldl (fun s m => (handleMessage k [] s m).state) s).futureResolved
          = ((ms.foldl (fun s m => (handleMessage k [] s m).state) s).kernelIdle
              && (ms.foldl (fun s m => (handleMessage k [] s m).state) s).replySeen)) := by
  induction ms with
  | nil => intro s hs; simpa using hs
  | cons m rest ih =>
    intro s hs
    obtain ⟨h1, h2, h3⟩ := actionStep_base k hk s m
    obtain ⟨g1, g2, g3⟩ := ih _ (h3 hs)
    refine ⟨?_, ?_, by simpa using g3⟩
    · simp only [List.foldl_cons, List.any_cons]
      rw [g1, h1, Bool.or_assoc]
    · simp only [List.foldl_cons, List.any_cons]
      rw [g2, h2, Bool.or_assoc]

theorem runFrom_comm (k : ActionKind) (hk : replyMsgType k = none) (ms : List Message) :
    ∀ s : ActionState,
      ((ms.foldl (fun s m => (handleMessage k [] s m).state) s).futureResolved
          = (s.futureResolved || ms.any isIdleStatus)) := by
  induction ms with
  | nil => intro s; simp
  | cons m rest ih =>
    intro s
    obtain ⟨h1, h2, h3⟩ := actionStep_comm k hk s m
    simp only [List.foldl_cons, List.any_cons]
    rw [ih, h3, Bool.or_assoc]

/-- Claim C1: for every Action kind and every sequence of delivered messages,
the future of the Action is resolved exactly when a kernel-idle status has been
seen and either the expected reply has been seen or the Action expects no
reply (comm Actions, whose future resolves on idle alone). -/
theorem action_future_resolved_iff (k : ActionKind) (ms : List Message) :
    (runAction k ms).futureResolved
      = (ms.any isIdleStatus && (ms.any (isExpectedReply k) || (replyMsgType k).isNone)) := by
  cases k
  case commOpen =>
    unfold runAction
    rw [runFrom_comm .commOpen rfl ms {}]
    simp [replyMsgType, isExpectedReply]
  case commMsg =>
    unfold runAction
    rw [runFrom_comm .commMsg rfl ms {}]
    simp [replyMsgType, isExpectedReply]
  case kernelInfo =>
    unfold runAction
    obtain ⟨h1, h2, h3⟩ := runFrom_base .kernelInfo rfl ms {} rfl
    rw [h3, h1, h2]
    simp [replyMsgType]
  case execute =>
    unfold runAction
    obtain ⟨h1, h2, h3⟩ := runFrom_base .execute rfl ms {} rfl
    rw [h3, h1, h2]
    simp [replyMsgType]
  case complete =>
    unfold runAction
    obtain ⟨h1, h2, h3⟩ := runFrom_base .complete rfl ms {} rfl
    rw [h3, h1, h2]
    simp [replyMsgType]
  case interrupt =>
    unfold runAction
    obtain ⟨h1, h2, h3⟩ := runFrom_base .interrupt rfl ms {} rfl
    rw [h3, h1, h2]
    simp [replyMsgType]

theorem runObservers_no_raises (mt : String) (obs : List Observer)
    (h : ∀ o ∈ obs, o.raises = false) :
    runObservers mt obs
      = ((obs.filter fun o => observerMatches o mt).map Observer.id, false) := by
  induction obs with
  | nil => rfl
  | cons o rest ih =>
    have ho := h o (by simp)
    have hrest : ∀ o ∈ rest, o.raises = false := fun o hm => h o (by simp [hm])
    by_cases hm : observerMatches o mt <;>
      simp [runObservers, hm, ho, ih hrest, List.filter_cons]

/-- Counterexample for claim C7 as stated: deliver `interrupt_reply`, then
`status: idle` (resolving the future), then a second `status: idle` to an
`InterruptAction` carrying one catch-all observer.  The second idle makes
`handle_status` raise (`set_result` on a resolved future); the exception is
caught and logged — but the observer callback does NOT run for that message,
although it ran for the two previous ones. -/
theorem observer_skipped_on_handler_exception :
    (handleMessage .interrupt [{ message_type := none, id := 0, raises := false }]
        ((handleMessage .interrupt [{ message_type := none, id := 0, raises := false }]
          ((handleMessage .interrupt [{ message_type := none, id := 0, raises := false }]
            {} (.interruptReply sampleBase)).state) sampleIdleMsg).state)
        sampleIdleMsg).handlerErrorLogged = true ∧
    (handleMessage .interrupt [{ message_type := none, id := 0, raises := false }]
        ((handleMessage .interrupt [{ message_type := none, id := 0, raises := false }]
          ((handleMessage .interrupt [{ message_type := none, id := 0, raises := false }]
            {} (.interruptReply sampleBase)).state) sampleIdleMsg).state)
        sampleIdleMsg).observersRun = [] ∧
    (handleMessage .interrupt [{ message_type := none, id := 0, raises := false }]
        ((handleMessage .interrupt [{ message_type := none, id := 0, raises := false }]
          {} (.interruptReply sampleBase)).state) sampleIdleMsg).observersRun = [0] := by
  refine ⟨rfl, rfl, rfl⟩

/-- Claim C7 (amended): an exception raised by the message handler of the Action
is caught and logged and does not propagate, but the rest of the pipeline for that message is skipped — the attached observer callbacks do not run for it;
when the handler does not raise, the matching observers all run in
registration order. -/
theorem handler_exception_caught_observers_skipped (k : ActionKind) (obs : List Observer)
    (s : ActionState) (m : Message) (hno : ∀ o ∈ obs, o.raises = false) :
    (handleMessage k obs s m).raised = false ∧
    ((handleMessage k obs s m).handlerErrorLogged = true →
      (handleMessage k obs s m).observersRun = []) ∧
    ((handleMessage k obs s m).handlerErrorLogged = false →
      (handleMessage k obs s m).observersRun
        = (obs.filter fun o => observerMatches o m.msgType).map Observer.id) := by
  unfold handleMessage
  rcases hah : actionHandler k s m with _ | ⟨s1, b⟩
  · simp [runObservers_no_raises _ _ hno]
  · cases b <;> simp [runObservers_no_raises _ _ hno]

/-- Witness for the amended C7 theorem at a concrete input: a `kernel_info`
Action with one non-raising catch-all observer receiving `status: idle`. -/
theorem handler_exception_caught_observers_skipped_witness :
    (handleMessage .kernelInfo [{ message_type := none, id := 7, raises := false }]
        {} sampleIdleMsg).raised = false ∧
    ((handleMessage .kernelInfo [{ message_type := none, id := 7, raises := false }]
        {} sampleIdleMsg).handlerErrorLogged = true →
      (handleMessage .kernelInfo [{ message_type := none, id := 7, raises := false }]
        {} sampleIdleMsg).observersRun = []) ∧
    ((handleMessage .kernelInfo [{ message_type := none, id := 7, raises := false }]
        {} sampleIdleMsg).handlerErrorLogged = false →
      (handleMessage .kernelInfo [{ message_type := none, id := 7, raises := false }]
        {} sampleIdleMsg).observersRun
        = (([{ message_type := none, id := 7, raises := false }] : List Observer).filter
            fun o => observerMatches o sampleIdleMsg.msgType).map Observer.id) :=
  handler_exception_caught_observers_skipped .kernelInfo
    [{ message_type := none, id := 7, raises := false }] {} sampleIdleMsg (by decide)

/-! ## Safety-net timer (claim C2) -/

theorem safetyStep_tick_fix (s : SafetyState) (h : s.timer = none) :
    safetyStep s .tick = s := by
  unfold safetyStep
  rw [h]

theorem ticks_fix (n : Nat) : ∀ s : SafetyState, s.timer = none →
    (List.replicate n SafetyEvent.tick).foldl safetyStep s = s := by
  induction n with
  | zero => intro s _; rfl
  | succ j ih =>
    intro s h
    rw [List.replicate_succ, List.foldl_cons, safetyStep_tick_fix s h]
    exact ih s h

/-- Claim C2: when idle has been seen and the expected reply never arrives,
the safety net fires 3 seconds (the default window) after idle — setting
`reply_seen` and finalizing the Action, so it does not block forever — while
an Action that completes first has its timer cancelled and the safety net
never fires afterwards. -/
theorem safety_net_fires (k : Nat) (hk : 3 ≤ k) :
    ((safetyRun (.msgIdle :: List.replicate k .tick)).done = true ∧
     (safetyRun (.msgIdle :: List.replicate k .tick)).safetyFired = true ∧
     (safetyRun (.msgIdle :: List.replicate k .tick)).replySeen = true) ∧
    ((safetyRun [.msgIdle, .msgReply]).done = true ∧
     (safetyRun [.msgIdle, .msgReply]).timer = none ∧
     ∀ j : Nat,
       (safetyRun (.msgIdle :: .msgReply :: List.replicate j .tick)).safetyFired = false) := by
  constructor
  · obtain ⟨j, rfl⟩ : ∃ j, k = 3 + j := ⟨k - 3, by omega⟩
    have h3 : safetyRun (.msgIdle :: List.replicate (3 + j) .tick)
        = ⟨true, true, true, none, true⟩ := by
      unfold safetyRun
      rw [List.foldl_cons, List.replicate_add, List.foldl_append]
      exact ticks_fix j _ rfl
    rw [h3]
    exact ⟨rfl, rfl, rfl⟩
  · refine ⟨rfl, rfl, fun j => ?_⟩
    have hc : safetyRun (.msgIdle :: .msgReply :: List.replicate j .tick)
        = ⟨true, true, true, none, false⟩ := by
      unfold safetyRun
      rw [List.foldl_cons, List.foldl_cons]
      exact ticks_fix j _ rfl
    rw [hc]

/-- Witness for C2: with exactly 3 ticks after idle the safety net fires;
after a completed Action 5 further ticks never fire it. -/
theorem safety_net_fires_witness :
    (safetyRun (.msgIdle :: List.replicate 3 .tick)).safetyFired = true ∧
    (safetyRun (.msgIdle :: .msgReply :: List.replicate 5 .tick)).safetyFired = false :=
  ⟨(safety_net_fires 3 (by decide)).1.2.1, (safety_net_fires 3 (by decide)).2.2.2 5⟩

/-! ## Dispatcher loop (claim C3) -/

/-- Claim C3, evaluated at the failing input: the `process_message` loop in
`client.py` routes a parse failure to the unparseable hook but (missing
`continue`) falls through to `msg.parent_header`.  On the first unparseable
frame the local `msg` is unbound and the dispatcher dies with a `NameError`
— it terminates on a content error; when an earlier frame had parsed, the
stale previous message is re-processed instead (here: the untracked hook
fires a second time for the same status message). -/
theorem dispatcher_dies_on_unparseable_frame :
    processQueue {} [sampleBogusFrame] = .error "NameError: name msg is not defined" ∧
    processQueue {} [sampleStatusFrame, sampleBogusFrame]
      = .ok { msgVar := some sampleIdleMsg, untrackedCount := 2, unparseableCount := 1 } :=
  ⟨rfl, rfl⟩

/-! ## Client submit path (claims C4, C6, C10) -/

/-- Claim C4: for an Action accepted by `Client.send`, the handler list ends
up as user handlers ++ default handlers ++ [Comm Manager], and since handlers
are invoked in list order, the Comm Manager is invoked last. -/
theorem send_handler_order (c : SendClient) (t : Bool) (a : SendableAction)
    (h1 : a.sent = false) (h2 : c.actions.lookup a.msg_id = none) :
    (send c t a).action.handlers
        = a.handlers ++ c.default_handlers ++ [HandlerRef.commManager] ∧
    (invocationOrder (send c t a).action).getLast? = some HandlerRef.commManager := by
  have hfst : (send c t a).action.handlers
      = a.handlers ++ c.default_handlers ++ [HandlerRef.commManager] := by
    unfold send
    cases t <;> simp [h1, h2]
  refine ⟨hfst, ?_⟩
  rw [invocationOrder, hfst, List.getLast?_concat]

/-- Witness for C4 at a concrete send: one user handler, one default
handler, fresh action. -/
theorem send_handler_order_witness :
    (send ⟨[], [.defaultHandler 1]⟩ true ⟨"m1", false, [.user 0]⟩).action.handlers
        = [HandlerRef.user 0] ++ [HandlerRef.defaultHandler 1] ++ [HandlerRef.commManager] ∧
    (invocationOrder
        (send ⟨[], [.defaultHandler 1]⟩ true ⟨"m1", false, [.user 0]⟩).action).getLast?
      = some HandlerRef.commManager :=
  send_handler_order ⟨[], [.defaultHandler 1]⟩ true ⟨"m1", false, [.user 0]⟩ rfl rfl

/-- Claim C6: `Client.send` raises its resubmission error exactly when the
Action is already sent or its `msg_id` is already registered, and such a
failure leaves the client registry and the Action untouched (no second
registration; fatal to the call only). -/
theorem send_resubmission_guard (c : SendClient) (t : Bool) (a : SendableAction) :
    (((send c t a).error = some .alreadySent ∨ (send c t a).error = some .alreadyTracking)
      ↔ (a.sent = true ∨ (c.actions.lookup a.msg_id).isSome = true)) ∧
    ((a.sent = true ∨ (c.actions.lookup a.msg_id).isSome = true) →
      (send c t a).client = c ∧ (send c t a).action = a) := by
  unfold send
  split_ifs with h1 h2 h3 <;> simp_all

/-- Witness for C6: sending an Action whose `msg_id` is already registered
fails with the tracking error and changes nothing. -/
theorem send_resubmission_guard_witness :
    ((send ⟨[("m1", ⟨"m1", true, []⟩)], []⟩ true ⟨"m1", false, []⟩).error = some .alreadySent ∨
     (send ⟨[("m1", ⟨"m1", true, []⟩)], []⟩ true ⟨"m1", false, []⟩).error
        = some .alreadyTracking) ∧
    (send ⟨[("m1", ⟨"m1", true, []⟩)], []⟩ true ⟨"m1", false, []⟩).client
        = ⟨[("m1", ⟨"m1", true, []⟩)], []⟩ ∧
    (send ⟨[("m1", ⟨"m1", true, []⟩)], []⟩ true ⟨"m1", false, []⟩).action = ⟨"m1", false, []⟩ :=
  ⟨(send_resubmission_guard ⟨[("m1", ⟨"m1", true, []⟩)], []⟩ true ⟨"m1", false, []⟩).1.mpr
      (Or.inr (by decide)),
   (send_resubmission_guard ⟨[("m1", ⟨"m1", true, []⟩)], []⟩ true ⟨"m1", false, []⟩).2
      (Or.inr (by decide))⟩

/-- Claim C10: if handing the request to the channel raises, the exception
propagates and the client state is unchanged — the `sent` flag of the Action is
still false and its `msg_id` is not in the registry. -/
theorem send_transport_failure_atomic (c : SendClient) (a : SendableAction)
    (h1 : a.sent = false) (h2 : c.actions.lookup a.msg_id = none) :
    (send c false a).error = some .transport ∧
    (send c false a).client = c ∧
    (send c false a).action.sent = false ∧
    (send c false a).client.actions.lookup a.msg_id = none := by
  unfold send
  simp [h1, h2]

/-- Witness for C10 at a concrete input: fresh action, empty registry,
failing transport. -/
theorem send_transport_failure_atomic_witness :
    (send ⟨[], []⟩ false ⟨"m9", false, []⟩).error = some .transport ∧
    (send ⟨[], []⟩ false ⟨"m9", false, []⟩).client = ⟨[], []⟩ ∧
    (send ⟨[], []⟩ false ⟨"m9", false, []⟩).action.sent = false ∧
    (send ⟨[], []⟩ false ⟨"m9", false, []⟩).client.actions.lookup "m9" = none :=
  send_transport_failure_atomic ⟨[], []⟩ ⟨"m9", false, []⟩ (by decide) (by decide)

/-! ## Comm Manager (claim C5) -/

theorem lookup_map_update_self {β : Type} (k : String) (v : β) :
    ∀ xs : List (String × β), (xs.lookup k).isSome = true →
      (xs.map fun p => if p.1 = k then (k, v) else p).lookup k = some v := by
  intro xs
  induction xs with
  | nil => intro h; simp at h
  | cons p rest ih =>
    obtain ⟨p1, p2⟩ := p
    intro h
    rw [List.map_cons]
    by_cases hp : p1 = k
    · rw [if_pos hp]
      simp [List.lookup]
    · rw [if_neg hp]
      have hne : (k == p1) = false := by
        simp only [beq_eq_false_iff_ne, ne_eq]
        exact fun hk => hp hk.symm
      have hrest : (rest.lookup k).isSome = true := by
        simpa [List.lookup, hne] using h
      simpa [List.lookup, hne] using ih hrest

theorem lookup_append_singleton {β : Type} (k : String) (v : β) :
    ∀ xs : List (String × β), (xs.lookup k).isSome = false →
      (xs ++ [(k, v)]).lookup k = some v := by
  intro xs
  induction xs with
  | nil => intro _; simp [List.lookup]
  | cons p rest ih =>
    obtain ⟨p1, p2⟩ := p
    intro h
    have hne : (k == p1) = false := by
      cases hb : (k == p1)
      · rfl
      · simp [List.lookup, hb] at h
    have hrest : (rest.lookup k).isSome = false := by
      simpa [List.lookup, hne] using h
    simpa [List.lookup, hne] using ih hrest

theorem lookup_updateAssoc_self {β : Type} (xs : List (String × β)) (k : String) (v : β) :
    (updateAssoc xs k v).lookup k = some v := by
  unfold updateAssoc
  by_cases h : (xs.lookup k).isSome
  · rw [if_pos h]
    exact lookup_map_update_self k v xs h
  · rw [if_neg h]
    have hf : (xs.lookup k).isSome = false := by
      cases hb : (xs.lookup k).isSome
      · rfl
      · exact absurd hb h
    exact lookup_append_singleton k v xs hf

theorem lookup_eraseAssoc_self {β : Type} (xs : List (String × β)) (k : String) :
    (eraseAssoc xs k).lookup k = none := by
  unfold eraseAssoc
  induction xs with
  | nil => rfl
  | cons p rest ih =>
    obtain ⟨p1, p2⟩ := p
    by_cases hp : p1 = k
    · simpa [List.filter_cons, hp] using ih
    · have hne : (k == p1) = false := by
        simp only [beq_eq_false_iff_ne, ne_eq]
        exact fun hk => hp hk.symm
      simpa [List.filter_cons, hp, List.lookup, hne] using ih

/-- Claim C5: the `comms` map semantics of the Comm Manager — on `comm_open` a
known `comm_id` is delivered to the existing handler without replacing it, an
unregistered `target_name` only fires the unrecognized-target hook, and
otherwise a fresh handler is instantiated, stored and given the message; a
`comm_msg` with an unknown `comm_id` only fires the unrecognized-comm hook
(returning normally); a `comm_close` for a known `comm_id` delivers the
message to the handler and then removes it, so afterwards the id is gone. -/
theorem comm_manager_semantics
    (st1 : CommManagerState) (b1 : MsgBase) (c1 : CommOpenContent) (h1 : CommHandlerInst)
    (st2 : CommManagerState) (b2 : MsgBase) (c2 : CommOpenContent)
    (st3 : CommManagerState) (b3 : MsgBase) (c3 : CommOpenContent) (cls3 : Nat)
    (st4 : CommManagerState) (b4 : MsgBase) (c4 : CommMsgContent)
    (st5 : CommManagerState) (b5 : MsgBase) (c5 : CommCloseContent) (h5 : CommHandlerInst) :
    (st1.comms.lookup c1.comm_id = some h1 →
      (commManagerHandle st1 (.commOpen b1 c1)).comms.lookup c1.comm_id
          = some (deliverTo h1 (.commOpen b1 c1)) ∧
      (commManagerHandle st1 (.commOpen b1 c1)).handlers = st1.handlers ∧
      (commManagerHandle st1 (.commOpen b1 c1)).unrecognizedTargetCount
          = st1.unrecognizedTargetCount) ∧
    (st2.comms.lookup c2.comm_id = none → st2.handlers.lookup c2.target_name = none →
      (commManagerHandle st2 (.commOpen b2 c2)).comms = st2.comms ∧
      (commManagerHandle st2 (.commOpen b2 c2)).unrecognizedTargetCount
          = st2.unrecognizedTargetCount + 1 ∧
      (commManagerHandle st2 (.commOpen b2 c2)).deliveryLog = st2.deliveryLog) ∧
    (st3.comms.lookup c3.comm_id = none → st3.handlers.lookup c3.target_name = some cls3 →
      (commManagerHandle st3 (.commOpen b3 c3)).comms.lookup c3.comm_id
          = some ⟨c3.comm_id, cls3, [.commOpen b3 c3]⟩) ∧
    (st4.comms.lookup c4.comm_id = none →
      (commManagerHandle st4 (.commMsg b4 c4)).comms = st4.comms ∧
      (commManagerHandle st4 (.commMsg b4 c4)).unrecognizedCommCount
          = st4.unrecognizedCommCount + 1) ∧
    (st5.comms.lookup c5.comm_id = some h5 →
      (commManagerHandle st5 (.commClose b5 c5)).deliveryLog
          = st5.deliveryLog ++ [(c5.comm_id, (.commClose b5 c5 : Message))] ∧
      (commManagerHandle st5 (.commClose b5 c5)).comms.lookup c5.comm_id = none) := by
  refine ⟨fun hl => ?_, fun hl ht => ?_, fun hl ht => ?_, fun hl => ?_, fun hl => ?_⟩
  · simp only [commManagerHandle]
    unfold handleCommOpenMgr
    rw [hl]
    exact ⟨lookup_updateAssoc_self _ _ _, rfl, rfl⟩
  · simp only [commManagerHandle]
    unfold handleCommOpenMgr
    rw [hl, ht]
    exact ⟨rfl, rfl, rfl⟩
  · simp only [commManagerHandle]
    unfold handleCommOpenMgr
    rw [hl, ht]
    simpa [deliverTo] using lookup_updateAssoc_self st3.comms c3.comm_id
      (deliverTo ⟨c3.comm_id, cls3, []⟩ (.commOpen b3 c3))
  · simp only [commManagerHandle]
    unfold handleCommMsgMgr
    rw [hl]
    exact ⟨rfl, rfl⟩
  · simp only [commManagerHandle]
    unfold handleCommCloseMgr
    rw [hl]
    exact ⟨rfl, lookup_eraseAssoc_self _ _⟩

/-- Witness for C5 at concrete states: each of the five scenarios exercised
on small explicit manager states. -/
theorem comm_manager_semantics_witness :
    (commManagerHandle ⟨[("id1", ⟨"id1", 5, []⟩)], [("t", 9)], 0, 0, []⟩
        (.commOpen sampleBase ⟨"id1", "t", .null⟩)).comms.lookup "id1"
      = some (deliverTo ⟨"id1", 5, []⟩ (.commOpen sampleBase ⟨"id1", "t", .null⟩)) ∧
    (commManagerHandle ⟨[], [], 0, 0, []⟩
        (.commOpen sampleBase ⟨"idX", "tX", .null⟩)).unrecognizedTargetCount = 1 ∧
    (commManagerHandle ⟨[], [("tgt", 3)], 0, 0, []⟩
        (.commOpen sampleBase ⟨"id3", "tgt", .null⟩)).comms.lookup "id3"
      = some ⟨"id3", 3, [.commOpen sampleBase ⟨"id3", "tgt", .null⟩]⟩ ∧
    (commManagerHandle ⟨[], [], 0, 0, []⟩
        (.commMsg sampleBase ⟨"idX", .null⟩)).unrecognizedCommCount = 1 ∧
    (commManagerHandle ⟨[("id1", ⟨"id1", 5, []⟩)], [("t", 9)], 0, 0, []⟩
        (.commClose sampleBase ⟨"id1", .null⟩)).comms.lookup "id1" = none :=
  ⟨((comm_manager_semantics ⟨[("id1", ⟨"id1", 5, []⟩)], [("t", 9)], 0, 0, []⟩ sampleBase
      ⟨"id1", "t", .null⟩ ⟨"id1", 5, []⟩ ⟨[], [], 0, 0, []⟩ sampleBase ⟨"idX", "tX", .null⟩
      ⟨[], [("tgt", 3)], 0, 0, []⟩ sampleBase ⟨"id3", "tgt", .null⟩ 3 ⟨[], [], 0, 0, []⟩
      sampleBase ⟨"idX", .null⟩ ⟨[("id1", ⟨"id1", 5, []⟩)], [("t", 9)], 0, 0, []⟩ sampleBase
      ⟨"id1", .null⟩ ⟨"id1", 5, []⟩).1 rfl).1,
   ((comm_manager_semantics ⟨[("id1", ⟨"id1", 5, []⟩)], [("t", 9)], 0, 0, []⟩ sampleBase
      ⟨"id1", "t", .null⟩ ⟨"id1", 5, []⟩ ⟨[], [], 0, 0, []⟩ sampleBase ⟨"idX", "tX", .null⟩
      ⟨[], [("tgt", 3)], 0, 0, []⟩ sampleBase ⟨"id3", "tgt", .null⟩ 3 ⟨[], [], 0, 0, []⟩
      sampleBase ⟨"idX", .null⟩ ⟨[("id1", ⟨"id1", 5, []⟩)], [("t", 9)], 0, 0, []⟩ sampleBase
      ⟨"id1", .null⟩ ⟨"id1", 5, []⟩).2.1 rfl rfl).2.1,
   ((comm_manager_semantics ⟨[("id1", ⟨"id1", 5, []⟩)], [("t", 9)], 0, 0, []⟩ sampleBase
      ⟨"id1", "t", .null⟩ ⟨"id1", 5, []⟩ ⟨[], [], 0, 0, []⟩ sampleBase ⟨"idX", "tX", .null⟩
      ⟨[], [("tgt", 3)], 0, 0, []⟩ sampleBase ⟨"id3", "tgt", .null⟩ 3 ⟨[], [], 0, 0, []⟩
      sampleBase ⟨"idX", .null⟩ ⟨[("id1", ⟨"id1", 5, []⟩)], [("t", 9)], 0, 0, []⟩ sampleBase
      ⟨"id1", .null⟩ ⟨"id1", 5, []⟩).2.2.1 rfl rfl),
   ((comm_manager_semantics ⟨[("id1", ⟨"id1", 5, []⟩)], [("t", 9)], 0, 0, []⟩ sampleBase
      ⟨"id1", "t", .null⟩ ⟨"id1", 5, []⟩ ⟨[], [], 0, 0, []⟩ sampleBase ⟨"idX", "tX", .null⟩
      ⟨[], [("tgt", 3)], 0, 0, []⟩ sampleBase ⟨"id3", "tgt", .null⟩ 3 ⟨[], [], 0, 0, []⟩
      sampleBase ⟨"idX", .null⟩ ⟨[("id1", ⟨"id1", 5, []⟩)], [("t", 9)], 0, 0, []⟩ sampleBase
      ⟨"id1", .null⟩ ⟨"id1", 5, []⟩).2.2.2.1 rfl).2,
   ((comm_manager_semantics ⟨[("id1", ⟨"id1", 5, []⟩)], [("t", 9)], 0, 0, []⟩ sampleBase
      ⟨"id1", "t", .null⟩ ⟨"id1", 5, []⟩ ⟨[], [], 0, 0, []⟩ sampleBase ⟨"idX", "tX", .null⟩
      ⟨[], [("tgt", 3)], 0, 0, []⟩ sampleBase ⟨"id3", "tgt", .null⟩ 3 ⟨[], [], 0, 0, []⟩
      sampleBase ⟨"idX", .null⟩ ⟨[("id1", ⟨"id1", 5, []⟩)], [("t", 9)], 0, 0, []⟩ sampleBase
      ⟨"id1", .null⟩ ⟨"id1", 5, []⟩).2.2.2.2 rfl).2⟩

end KernelSidecar
